import Mathlib

set_option maxRecDepth 40000

/-!
Shallow embedding of the CryptoC Ethereum transaction simulator
(`src/backend/blockchain_simulator.py`, class `EthereumSimulator`).

Modelling conventions:
* Python byte strings are `List Nat` (each entry `< 256`); Python text
  strings (calldata hex, warnings, decimal amount strings) are `List Char`.
* Ethereum addresses are modelled by their 160-bit numeric value (`Nat`).
  `eth_utils.to_checksum_address` only normalises the EIP-55 letter casing
  of a textual address and is the identity on the underlying 20-byte
  account, so it is modelled as the identity on that value; no claim
  depends on checksum casing.
* Machine-free arithmetic: all integers are `Nat`; the single Python float
  expression (`UNLIMITED_APPROVAL * 0.9`) is replaced by its exact value
  as an IEEE-754 double, see `approveThreshold`.
* Fallible code (`bytes.fromhex`, `eth_abi.decode`) is modelled with
  `Except DecodeError`; the Python code catches these exceptions with
  `try/except`.
* The fields `balance_changes` (always the empty before/after dict in the
  source) and `contract_info` (oracle metadata only, never fed back into
  scoring) are omitted from the result structure; no claim concerns them.
-/

namespace CryptoC

/-- One byte, kept as a `Nat` below 256. -/
abbrev Byte := Nat

/-- Typed decode failures.  `badHex` models the `ValueError` raised by
`bytes.fromhex`; `truncated` models eth_abi's `InsufficientDataBytes`
(the spec's `TruncatedCalldata`); `nonZeroPadding` models
`NonEmptyPaddingBytes` on an address slot; `malformedBool` the error for a
bool slot whose value is neither 0 nor 1 (the spec's `MalformedBool`).
In the Python source all of these are ordinary exceptions caught by the
enclosing `try/except` of each `_decode_*` method. -/
inductive DecodeError
  | badHex
  | truncated
  | nonZeroPadding
  | malformedBool
deriving DecidableEq

/-- Value of one hexadecimal digit (both cases), as accepted by Python's
`bytes.fromhex`; `none` on a non-hex character. -/
def hexVal? (c : Char) : Option Nat :=
  if '0' ≤ c ∧ c ≤ '9' then some (c.toNat - 48)
  else if 'a' ≤ c ∧ c ≤ 'f' then some (c.toNat - 87)
  else if 'A' ≤ c ∧ c ≤ 'F' then some (c.toNat - 55)
  else none

/-- Python `bytes.fromhex`: two hexadecimal digits per byte.  (The ASCII
whitespace skipping of `bytes.fromhex` is not modelled; no claim involves
whitespace inside calldata.) -/
def fromhexE : List Char → Except DecodeError (List Byte)
  | [] => .ok []
  | [_] => .error .badHex
  | c1 :: c2 :: rest =>
    match hexVal? c1, hexVal? c2 with
    | some h, some l =>
      match fromhexE rest with
      | .ok bs => .ok ((16 * h + l) :: bs)
      | .error e => .error e
    | _, _ => .error .badHex

/-- Big-endian value of a byte string, as eth_abi reads uint256 slots. -/
def bytesToNat (bs : List Byte) : Nat :=
  bs.foldl (fun acc b => acc * 256 + b) 0

/-- Read one 32-byte head slot from the remaining buffer, as eth_abi's
`read_data_from_stream`.  Fewer than 32 remaining bytes raise
`InsufficientDataBytes`. -/
def readSlot32 (bs : List Byte) : Except DecodeError (List Byte × List Byte) :=
  if bs.length < 32 then .error .truncated else .ok (bs.take 32, bs.drop 32)

/-- eth_abi `address` slot decoder: the 12 high padding bytes must be
zero (`NonEmptyPaddingBytes` otherwise); the low 20 bytes are the
account. -/
def decAddressSlot (slot : List Byte) : Except DecodeError Nat :=
  if (slot.take 12).all (· = 0) then .ok (bytesToNat (slot.drop 12))
  else .error .nonZeroPadding

/-- eth_abi `bool` slot decoder: 31 zero padding bytes, low byte 0 or 1. -/
def decBoolSlot (slot : List Byte) : Except DecodeError Bool :=
  if (slot.take 31).all (· = 0) then
    if bytesToNat (slot.drop 31) = 0 then .ok false
    else if bytesToNat (slot.drop 31) = 1 then .ok true
    else .error .malformedBool
  else .error .nonZeroPadding

/-- eth_abi `decode(['address', 'uint256'], bs)`, the sequential head-slot
reads behind `_decode_approve` and `_decode_transfer`. -/
def abiDecodeAddrUint (bs : List Byte) : Except DecodeError (Nat × Nat) :=
  match readSlot32 bs with
  | .error e => .error e
  | .ok (s1, r1) =>
    match decAddressSlot s1 with
    | .error e => .error e
    | .ok a =>
      match readSlot32 r1 with
      | .error e => .error e
      | .ok (s2, _) => .ok (a, bytesToNat s2)

/-- eth_abi `decode(['address', 'address', 'uint256'], bs)`, behind
`_decode_transfer_from` and `_decode_nft_transfer`. -/
def abiDecodeAddrAddrUint (bs : List Byte) : Except DecodeError (Nat × Nat × Nat) :=
  match readSlot32 bs with
  | .error e => .error e
  | .ok (s1, r1) =>
    match decAddressSlot s1 with
    | .error e => .error e
    | .ok a =>
      match readSlot32 r1 with
      | .error e => .error e
      | .ok (s2, r2) =>
        match decAddressSlot s2 with
        | .error e => .error e
        | .ok b =>
          match readSlot32 r2 with
          | .error e => .error e
          | .ok (s3, _) => .ok (a, b, bytesToNat s3)

/-- eth_abi `decode(['address', 'bool'], bs)`, behind
`_decode_set_approval_for_all`. -/
def abiDecodeAddrBool (bs : List Byte) : Except DecodeError (Nat × Bool) :=
  match readSlot32 bs with
  | .error e => .error e
  | .ok (s1, r1) =>
    match decAddressSlot s1 with
    | .error e => .error e
    | .ok a =>
      match readSlot32 r1 with
      | .error e => .error e
      | .ok (s2, _) =>
        match decBoolSlot s2 with
        | .error e => .error e
        | .ok b => .ok (a, b)

/-- Value of one decimal digit, `none` otherwise. -/
def decDigit? (c : Char) : Option Nat :=
  if '0' ≤ c ∧ c ≤ '9' then some (c.toNat - 48) else none

/-- Python `int(s)` on the strings the simulator actually produces:
nonempty all-digit decimal numerals.  Lexical forms `int()` would also
accept (signs, surrounding whitespace, underscores) are outside every
quantified domain below and are not modelled; on a non-numeric string,
where `int()` raises `ValueError`, this returns `none` and the theorems
about the risk engine restrict their domain with `effectOK`. -/
def parseDecimal (cs : List Char) : Option Nat :=
  if cs = [] then none
  else cs.foldl (fun acc c => acc.bind fun n => (decDigit? c).map fun d => 10 * n + d) (some 0)

/-- Python `str` of a nonnegative integer. -/
def pyStr (n : Nat) : List Char := (Nat.repr n).toList

/-- Lowercase hexadecimal digit character. -/
def hexDigit (n : Nat) : Char :=
  if n < 10 then Char.ofNat (48 + n) else Char.ofNat (87 + n)

/-- Textual form of an address as interpolated into warning strings.
The source interpolates the EIP-55 checksummed form produced by
`to_checksum_address`; the keccak-derived letter casing is not modelled.
Claims depend only on which address a warning names, and this lowercase
rendering is injective on 160-bit addresses. -/
def addrStr (a : Nat) : List Char :=
  "0x".toList ++ (List.range 40).map (fun i => hexDigit (a / 16 ^ (39 - i) % 16))

/-- Rendering of the caught exception (`str(e)`) spliced into
decode-failure warnings.  The Python messages originate in eth_abi /
`bytes.fromhex` and are longer; no claim depends on the reason text, only
on the warning's presence, so they are abbreviated here. -/
def errMsg : DecodeError → List Char
  | .badHex => "non-hexadecimal number found in fromhex() arg".toList
  | .truncated => "Tried to read 32 bytes, only got fewer bytes".toList
  | .nonZeroPadding => "Padding bytes were not empty".toList
  | .malformedBool => "boolean must be either 0x0 or 0x1".toList

/-- `dataclass TransactionEffect` of the source.  Addresses are 160-bit
numeric values; the string fields (`value`, `effect_type`,
`token_symbol`, `approval_amount`) are kept as the Python strings the
source stores. -/
structure TransactionEffect where
  from_address : Nat
  to_address : Nat
  value : List Char
  effect_type : List Char
  token_address : Option Nat := none
  token_symbol : Option (List Char) := none
  approval_amount : Option (List Char) := none
deriving DecidableEq

/-- `dataclass SimulationResult` of the source (minus the
`balance_changes` placeholder and the oracle-only `contract_info`). -/
structure SimulationResult where
  success : Bool
  effects : List TransactionEffect
  gas_used : Nat
  risk_level : List Char
  risk_score : Nat
  warnings : List (List Char)
deriving DecidableEq

/-- The optional Alchemy collaborator as observable from
`simulate_transaction`: absent (`self.alchemy` is `None` or
`is_available()` is false), raising an exception (caught and logged), or
returning a dict with a `success` flag and an optional revert reason. -/
inductive Oracle
  | absent
  | erroring
  | reporting (success : Bool) (revert_reason : Option (List Char))
deriving DecidableEq

/-- `keccak(text="transfer(address,uint256)")[:4].hex()`.  The source
computes the selectors by Keccak-256 at class-definition time; the
standard values are inlined here. -/
def TRANSFER_SIG : List Char := "a9059cbb".toList

/-- `keccak(text="approve(address,uint256)")[:4].hex()`. -/
def APPROVE_SIG : List Char := "095ea7b3".toList

/-- `keccak(text="transferFrom(address,address,uint256)")[:4].hex()`. -/
def TRANSFER_FROM_SIG : List Char := "23b872dd".toList

/-- `keccak(text="safeTransferFrom(address,address,uint256)")[:4].hex()`. -/
def SAFE_TRANSFER_FROM_SIG : List Char := "42842e0e".toList

/-- `keccak(text="setApprovalForAll(address,bool)")[:4].hex()`. -/
def SET_APPROVAL_FOR_ALL_SIG : List Char := "a22cb465".toList

/-- The `0x`-prefixed selector strings the dispatcher compares against
(`f"0x{self.APPROVE_SIG}"` etc.). -/
def sigStrings : List (List Char) :=
  ["0x".toList ++ APPROVE_SIG,
   "0x".toList ++ TRANSFER_SIG,
   "0x".toList ++ TRANSFER_FROM_SIG,
   "0x".toList ++ SET_APPROVAL_FOR_ALL_SIG,
   "0x".toList ++ SAFE_TRANSFER_FROM_SIG]

/-- `UNLIMITED_APPROVAL = 2**256 - 1`. -/
def UNLIMITED_APPROVAL : Nat := 2 ^ 256 - 1

/-- Exact value of the Python float expression
`self.UNLIMITED_APPROVAL * 0.9` used at both threshold checks in the
source: the integer `2^256 - 1` rounds to the double `2^256`, and
`2^256 * 0.9` is exactly `8106479329266893 * 2^203` in double precision
(no further rounding, since the mantissa fits in 53 bits).  An amount is
scored as "unlimited" precisely when it is `≥` this value. -/
def approveThreshold : Nat := 8106479329266893 * 2 ^ 203

/-- `EthereumSimulator._decode_approve`.  Returns the effect (if the
calldata decodes) and the warning list (the source returns `None` for an
empty warning list; `simulate_transaction` only ever `extend`s with it,
so the empty list is an equivalent encoding). -/
def decode_approve (from_address token_address : Nat) (calldata : List Char) :
    Option TransactionEffect × List (List Char) :=
  match (fromhexE calldata).bind abiDecodeAddrUint with
  | .ok (spender, amount) =>
    let warnings :=
      if approveThreshold ≤ amount then
        ["⚠️ UNLIMITED TOKEN APPROVAL DETECTED".toList,
         "This allows ".toList ++ addrStr spender ++ " to spend ALL your tokens forever!".toList,
         "This is a common pattern used by token drainer scams".toList]
      else []
    (some { from_address := from_address, to_address := spender,
            value := "0".toList,
            token_address := some token_address,
            token_symbol := some "UNKNOWN_TOKEN".toList,
            effect_type := "approve".toList,
            approval_amount := some (pyStr amount) },
     warnings)
  | .error e => (none, ["Failed to decode approve call: ".toList ++ errMsg e])

/-- `EthereumSimulator._decode_transfer`.  On a decode failure the source
prints to stdout and returns `None`: no warning reaches the caller. -/
def decode_transfer (from_address token_address : Nat) (calldata : List Char) :
    Option TransactionEffect :=
  match (fromhexE calldata).bind abiDecodeAddrUint with
  | .ok (toAddr, amount) =>
    some { from_address := from_address, to_address := toAddr,
           value := pyStr amount,
           token_address := some token_address,
           token_symbol := some "UNKNOWN_TOKEN".toList,
           effect_type := "transfer".toList }
  | .error _ => none

/-- `EthereumSimulator._decode_transfer_from`.  The decoded `from`
address, not the caller, is the source of the effect.  Decode failure
returns `None` with no warning. -/
def decode_transfer_from (token_address : Nat) (calldata : List Char) :
    Option TransactionEffect :=
  match (fromhexE calldata).bind abiDecodeAddrAddrUint with
  | .ok (from_addr, to_addr, amount) =>
    some { from_address := from_addr, to_address := to_addr,
           value := pyStr amount,
           token_address := some token_address,
           token_symbol := some "UNKNOWN_TOKEN".toList,
           effect_type := "transferFrom".toList }
  | .error _ => none

/-- `EthereumSimulator._decode_set_approval_for_all`. -/
def decode_set_approval_for_all (from_address nft_contract : Nat) (calldata : List Char) :
    Option TransactionEffect × List (List Char) :=
  match (fromhexE calldata).bind abiDecodeAddrBool with
  | .ok (operator, approved) =>
    let warnings :=
      if approved then
        ["⚠️ NFT APPROVAL FOR ALL DETECTED".toList,
         "This allows ".toList ++ addrStr operator ++
           " to transfer ALL your NFTs in this collection!".toList,
         "Common in NFT phishing scams - verify the operator address carefully".toList]
      else []
    (some { from_address := from_address, to_address := operator,
            value := "0".toList,
            token_address := some nft_contract,
            token_symbol := some "NFT".toList,
            effect_type := "setApprovalForAll".toList,
            approval_amount := some (if approved then "ALL".toList else "0".toList) },
     warnings)
  | .error e => (none, ["Failed to decode NFT approval: ".toList ++ errMsg e])

/-- `EthereumSimulator._decode_nft_transfer` (`safeTransferFrom`).
Decode failure returns `None` with no warning. -/
def decode_nft_transfer (nft_contract : Nat) (calldata : List Char) :
    Option TransactionEffect :=
  match (fromhexE calldata).bind abiDecodeAddrAddrUint with
  | .ok (from_addr, to_addr, token_id) =>
    some { from_address := from_addr, to_address := to_addr,
           value := pyStr token_id,
           token_address := some nft_contract,
           token_symbol := some "NFT".toList,
           effect_type := "nftTransfer".toList }
  | .error _ => none

/-- Per-effect contribution of the scoring loop in
`EthereumSimulator._calculate_risk`: +70 for an approve whose
(truthy) amount parses `≥ approveThreshold`, +10 for any other approve,
+65 for a `setApprovalForAll` effect whose amount marker is `"ALL"`,
+5 for `transfer`/`transferFrom`, 0 otherwise. -/
def effect_contribution (e : TransactionEffect) : Nat :=
  if e.effect_type = "approve".toList then
    match e.approval_amount with
    | some s => if s ≠ [] ∧ approveThreshold ≤ (parseDecimal s).getD 0 then 70 else 10
    | none => 10
  else if e.effect_type = "setApprovalForAll".toList then
    if e.approval_amount = some "ALL".toList then 65 else 0
  else if e.effect_type = "transfer".toList ∨ e.effect_type = "transferFrom".toList then 5
  else 0

/-- Domain of effects on which Python's `int(effect.approval_amount)`
call inside `_calculate_risk` is defined: an approve effect's amount is
absent, empty (falsy, short-circuited), or a decimal numeral.  Every
effect the decoders construct satisfies this. -/
def effectOK (e : TransactionEffect) : Bool :=
  if e.effect_type = "approve".toList then
    match e.approval_amount with
    | none => true
    | some s => s = [] || (parseDecimal s).isSome
  else true

/-- The pre-clamp total of `_calculate_risk`: per-effect contributions
plus 15 per warning string. -/
def unclamped_risk_score (effects : List TransactionEffect) (warnings : List (List Char)) : Nat :=
  (effects.map effect_contribution).sum + warnings.length * 15

/-- `EthereumSimulator._calculate_risk` (the `to_address` parameter is
accepted and unused, as in the source).  Returns `(risk_level,
risk_score)`: the total is capped at 100, and classified `danger` at
`≥ 60`, `warning` at `≥ 30`, `safe` below. -/
def calculate_risk (effects : List TransactionEffect) (warnings : List (List Char))
    (toAddress : Nat) : List Char × Nat :=
  let risk_score := min 100 (unclamped_risk_score effects warnings)
  let risk_level :=
    if 60 ≤ risk_score then "danger".toList
    else if 30 ≤ risk_score then "warning".toList
    else "safe".toList
  (risk_level, risk_score)

/-- Warnings contributed by the optional Alchemy branch of
`simulate_transaction`: gated on a non-empty `data`, silent when the
collaborator is absent or raises, and on a reported revert one warning
plus a second naming the (truthy) revert reason. -/
def oracle_warnings (o : Oracle) (data : List Char) : List (List Char) :=
  if data = [] then []
  else
    match o with
    | .absent => []
    | .erroring => []
    | .reporting true _ => []
    | .reporting false r =>
      "⚠️ Transaction would REVERT on actual blockchain".toList ::
        (match r with
         | some reason => if reason = [] then [] else ["Reason: ".toList ++ reason]
         | none => [])

/-- The `if data and len(data) > 10` dispatch block of
`simulate_transaction`: selector comparison against the five registered
signatures in source order, yielding the calldata-derived effects, the
calldata-derived warnings, and the final `gas_used` accumulator value
(21000 base, +50000 on any dispatched call, +100000 more on an
unrecognized selector). -/
def decode_dispatch (from_address to_address : Nat) (data : List Char) :
    List TransactionEffect × List (List Char) × Nat :=
  if 10 < data.length then
    if data.take 10 = "0x".toList ++ APPROVE_SIG then
      ((decode_approve from_address to_address (data.drop 10)).1.toList,
       (decode_approve from_address to_address (data.drop 10)).2, 71000)
    else if data.take 10 = "0x".toList ++ TRANSFER_SIG then
      ((decode_transfer from_address to_address (data.drop 10)).toList, [], 71000)
    else if data.take 10 = "0x".toList ++ TRANSFER_FROM_SIG then
      ((decode_transfer_from to_address (data.drop 10)).toList, [], 71000)
    else if data.take 10 = "0x".toList ++ SET_APPROVAL_FOR_ALL_SIG then
      ((decode_set_approval_for_all from_address to_address (data.drop 10)).1.toList,
       (decode_set_approval_for_all from_address to_address (data.drop 10)).2, 71000)
    else if data.take 10 = "0x".toList ++ SAFE_TRANSFER_FROM_SIG then
      ((decode_nft_transfer to_address (data.drop 10)).toList, [], 71000)
    else
      ([], ["Unknown function signature: ".toList ++ data.take 10], 171000)
  else ([], [], 21000)

/-- The native-currency transfer effect appended when `int(value) > 0`. -/
def eth_transfer_effect (from_address to_address value : Nat) : TransactionEffect :=
  { from_address := from_address, to_address := to_address,
    value := pyStr value, effect_type := "transfer".toList,
    token_symbol := some "ETH".toList }

/-- `EthereumSimulator.simulate_transaction`.  Addresses arrive as their
numeric value (checksum normalisation is the identity there, and the
claims condition on it not raising); `value` arrives parsed, mirroring
`int(value)`; `gas_limit` is accepted and ignored by the source body and
is omitted.  Effects: the ETH value transfer (when positive) followed by
the decoded call effect; warnings: the oracle's revert advisories
followed by decode warnings; `success` is unconditionally `True`. -/
def simulate_transaction (oracle : Oracle) (from_address to_address : Nat)
    (value : Nat) (data : List Char) : SimulationResult :=
  let ethEffects : List TransactionEffect :=
    if 0 < value then [eth_transfer_effect from_address to_address value] else []
  let oWarnings := oracle_warnings oracle data
  let call := decode_dispatch from_address to_address data
  let effects := ethEffects ++ call.1
  let warnings := oWarnings ++ call.2.1
  let risk := calculate_risk effects warnings to_address
  { success := true, effects := effects, gas_used := call.2.2,
    risk_level := risk.1, risk_score := risk.2, warnings := warnings }

/-- The per-effect scoring rule as the specification's table states it
(spec §4.5), written from the spec's words for comparison with
`effect_contribution`: +70 for an approve whose amount is at least the
unlimited threshold, +10 for any other approve, +65 for a
`setApprovalForAll` effect carrying the `"ALL"` approved marker, +5 for
transfer or transferFrom effects. -/
def spec_effect_points (e : TransactionEffect) : Nat :=
  if e.effect_type = "approve".toList then
    match e.approval_amount.bind parseDecimal with
    | some n => if approveThreshold ≤ n then 70 else 10
    | none => 10
  else if e.effect_type = "setApprovalForAll".toList ∧ e.approval_amount = some "ALL".toList then
    65
  else if e.effect_type = "transfer".toList ∨ e.effect_type = "transferFrom".toList then 5
  else 0

/-- The total as the specification states it: sum of per-effect
contributions plus 15 per warning, clamped to `[0, 100]` (the lower clamp
is inherent to `Nat`). -/
def spec_risk_score (effects : List TransactionEffect) (warnings : List (List Char)) : Nat :=
  min 100 ((effects.map spec_effect_points).sum + 15 * warnings.length)

/-- The classification as the specification states it: `danger` at
score ≥ 60, `warning` at 30 ≤ score < 60, `safe` below 30. -/
def spec_risk_level (score : Nat) : List Char :=
  if 60 ≤ score then "danger".toList
  else if 30 ≤ score then "warning".toList
  else "safe".toList

/-- First-address-slot well-formedness used to state when truncation is
the error that surfaces: the slot is not yet complete, or its 12 padding
bytes are zero. -/
abbrev addrSlotZeroPadded (bs : List Byte) : Prop :=
  bs.length < 32 ∨ (bs.take 12).all (· = 0) = true

instance {ε α : Type} [DecidableEq ε] [DecidableEq α] : DecidableEq (Except ε α) := fun x y =>
  match x, y with
  | .error e, .error f =>
    if h : e = f then .isTrue (by rw [h])
    else .isFalse (by intro hh; injection hh; exact h (by assumption))
  | .error _, .ok _ => .isFalse (fun hh => Except.noConfusion hh)
  | .ok _, .error _ => .isFalse (fun hh => Except.noConfusion hh)
  | .ok a, .ok b =>
    if h : a = b then .isTrue (by rw [h])
    else .isFalse (by intro hh; injection hh; exact h (by assumption))

/-! Unfolding and evaluation lemmas. -/

theorem simulate_transaction_def (o : Oracle) (f t v : Nat) (d : List Char) :
    simulate_transaction o f t v d =
      { success := true,
        effects := (if 0 < v then [eth_transfer_effect f t v] else []) ++
          (decode_dispatch f t d).1,
        gas_used := (decode_dispatch f t d).2.2,
        risk_level := (calculate_risk
          ((if 0 < v then [eth_transfer_effect f t v] else []) ++ (decode_dispatch f t d).1)
          (oracle_warnings o d ++ (decode_dispatch f t d).2.1) t).1,
        risk_score := (calculate_risk
          ((if 0 < v then [eth_transfer_effect f t v] else []) ++ (decode_dispatch f t d).1)
          (oracle_warnings o d ++ (decode_dispatch f t d).2.1) t).2,
        warnings := oracle_warnings o d ++ (decode_dispatch f t d).2.1 } := rfl

theorem oracle_warnings_absent (d : List Char) : oracle_warnings .absent d = [] := by
  unfold oracle_warnings
  split <;> rfl

theorem decode_dispatch_short (f t : Nat) (d : List Char) (h : ¬ 10 < d.length) :
    decode_dispatch f t d = ([], [], 21000) := by
  unfold decode_dispatch
  rw [if_neg h]

theorem decode_dispatch_approve (f t : Nat) (d : List Char) (hlen : 10 < d.length)
    (hsig : d.take 10 = "0x".toList ++ APPROVE_SIG) :
    decode_dispatch f t d =
      ((decode_approve f t (d.drop 10)).1.toList,
       (decode_approve f t (d.drop 10)).2, 71000) := by
  unfold decode_dispatch
  rw [if_pos hlen, if_pos hsig]

theorem decode_dispatch_transfer (f t : Nat) (d : List Char) (hlen : 10 < d.length)
    (hsig : d.take 10 = "0x".toList ++ TRANSFER_SIG) :
    decode_dispatch f t d =
      ((decode_transfer f t (d.drop 10)).toList, [], 71000) := by
  unfold decode_dispatch
  rw [if_pos hlen, hsig, if_neg (by decide), if_pos rfl]

theorem decode_dispatch_transfer_from (f t : Nat) (d : List Char) (hlen : 10 < d.length)
    (hsig : d.take 10 = "0x".toList ++ TRANSFER_FROM_SIG) :
    decode_dispatch f t d =
      ((decode_transfer_from t (d.drop 10)).toList, [], 71000) := by
  unfold decode_dispatch
  rw [if_pos hlen, hsig, if_neg (by decide), if_neg (by decide), if_pos rfl]

theorem decode_dispatch_set_approval (f t : Nat) (d : List Char) (hlen : 10 < d.length)
    (hsig : d.take 10 = "0x".toList ++ SET_APPROVAL_FOR_ALL_SIG) :
    decode_dispatch f t d =
      ((decode_set_approval_for_all f t (d.drop 10)).1.toList,
       (decode_set_approval_for_all f t (d.drop 10)).2, 71000) := by
  unfold decode_dispatch
  rw [if_pos hlen, hsig, if_neg (by decide), if_neg (by decide), if_neg (by decide), if_pos rfl]

theorem decode_dispatch_nft (f t : Nat) (d : List Char) (hlen : 10 < d.length)
    (hsig : d.take 10 = "0x".toList ++ SAFE_TRANSFER_FROM_SIG) :
    decode_dispatch f t d =
      ((decode_nft_transfer t (d.drop 10)).toList, [], 71000) := by
  unfold decode_dispatch
  rw [if_pos hlen, hsig, if_neg (by decide), if_neg (by decide), if_neg (by decide),
    if_neg (by decide), if_pos rfl]

theorem decode_dispatch_unknown (f t : Nat) (d : List Char) (hlen : 10 < d.length)
    (hsig : d.take 10 ∉ sigStrings) :
    decode_dispatch f t d =
      ([], ["Unknown function signature: ".toList ++ d.take 10], 171000) := by
  simp only [sigStrings, List.mem_cons, List.not_mem_nil, or_false, not_or] at hsig
  obtain ⟨h1, h2, h3, h4, h5⟩ := hsig
  unfold decode_dispatch
  rw [if_pos hlen, if_neg h1, if_neg h2, if_neg h3, if_neg h4, if_neg h5]

theorem take10_append (sig cd : List Char) (hsig : sig.length = 10) :
    (sig ++ cd).take 10 = sig := by
  rw [← hsig, List.take_left]

theorem drop10_append (sig cd : List Char) (hsig : sig.length = 10) :
    (sig ++ cd).drop 10 = cd := by
  rw [← hsig, List.drop_left]

theorem len10_append (sig cd : List Char) (hsig : sig.length = 10) (hcd : cd ≠ []) :
    10 < (sig ++ cd).length := by
  rw [List.length_append, hsig]
  have := List.length_pos.mpr hcd
  omega

theorem decode_approve_failure (f t : Nat) (cd : List Char)
    (h : (decode_approve f t cd).1 = none) :
    ∃ e, decode_approve f t cd =
      (none, ["Failed to decode approve call: ".toList ++ errMsg e]) := by
  unfold decode_approve at h ⊢
  cases hm : (fromhexE cd).bind abiDecodeAddrUint with
  | ok p =>
    obtain ⟨sp, am⟩ := p
    rw [hm] at h
    simp at h
  | error e =>
    exact ⟨e, rfl⟩

theorem decode_set_approval_failure (f t : Nat) (cd : List Char)
    (h : (decode_set_approval_for_all f t cd).1 = none) :
    ∃ e, decode_set_approval_for_all f t cd =
      (none, ["Failed to decode NFT approval: ".toList ++ errMsg e]) := by
  unfold decode_set_approval_for_all at h ⊢
  cases hm : (fromhexE cd).bind abiDecodeAddrBool with
  | ok p =>
    obtain ⟨op, ap⟩ := p
    rw [hm] at h
    simp at h
  | error e =>
    exact ⟨e, rfl⟩

/-! Claim theorems. -/

/-- C10: whenever `simulate_transaction` returns a result (address
normalisation did not raise), the result's `success` flag is `True`:
for every oracle behaviour, every pair of addresses, every value and
every calldata string — including unrecognized calldata, failing
decodes, and oracle-predicted reverts — the flag never reports
failure. -/
theorem simulate_always_succeeds (o : Oracle) (f t v : Nat) (d : List Char) :
    (simulate_transaction o f t v d).success = true := rfl

/-- C6 counterexample: calldata `"0xdeadbeef"` begins with a 4-byte
selector that is in none of the five registered signatures, yet because
its hex length is exactly 10 the `if data and len(data) > 10` guard
skips the dispatch entirely: the simulation emits ZERO warnings and
scores 0, not one unknown-signature warning and score 15 as the claim
asserts for every unregistered-selector calldata. -/
theorem unknown_selector_cex :
    "0xdeadbeef".toList.take 10 ∉ sigStrings ∧
    (simulate_transaction .absent 0 0 0 "0xdeadbeef".toList).warnings = [] ∧
    (simulate_transaction .absent 0 0 0 "0xdeadbeef".toList).risk_score = 0 ∧
    (simulate_transaction .absent 0 0 0 "0xdeadbeef".toList).risk_score ≠ 15 :=
  ⟨by decide, rfl, rfl, by decide⟩

/-- C6 (amended): for calldata strictly longer than the 10-character
`0x`-selector prefix whose selector matches none of the five registered
signatures, the simulation (at zero value, oracle absent) yields zero
effects, exactly one unknown-function-signature warning containing the
selector hex, risk score 15 and risk level `safe`; calldata of at most
the bare selector length (hex length ≤ 10) is skipped by the dispatch
guard instead and yields zero effects, zero warnings, score 0 and level
`safe`. -/
theorem unknown_selector_result (f t : Nat) (d : List Char) :
    (10 < d.length → d.take 10 ∉ sigStrings →
      (simulate_transaction .absent f t 0 d).effects = [] ∧
      (simulate_transaction .absent f t 0 d).warnings =
        ["Unknown function signature: ".toList ++ d.take 10] ∧
      (simulate_transaction .absent f t 0 d).risk_score = 15 ∧
      (simulate_transaction .absent f t 0 d).risk_level = "safe".toList) ∧
    (d.length ≤ 10 →
      (simulate_transaction .absent f t 0 d).effects = [] ∧
      (simulate_transaction .absent f t 0 d).warnings = [] ∧
      (simulate_transaction .absent f t 0 d).risk_score = 0 ∧
      (simulate_transaction .absent f t 0 d).risk_level = "safe".toList) := by
  constructor
  · intro hlen hsig
    rw [simulate_transaction_def, decode_dispatch_unknown f t d hlen hsig,
      oracle_warnings_absent]
    refine ⟨rfl, rfl, ?_, ?_⟩ <;>
      simp [calculate_risk, unclamped_risk_score]
  · intro hlen
    rw [simulate_transaction_def, decode_dispatch_short f t d (by omega),
      oracle_warnings_absent]
    refine ⟨rfl, rfl, ?_, ?_⟩ <;>
      simp [calculate_risk, unclamped_risk_score]

/-- C6 witness: a concrete unrecognized selector in both regimes —
with one parameter byte, and bare. -/
theorem unknown_selector_result_check :
    ((simulate_transaction .absent 0 0 0 "0xdeadbeef00".toList).effects = [] ∧
     (simulate_transaction .absent 0 0 0 "0xdeadbeef00".toList).warnings =
       ["Unknown function signature: ".toList ++ "0xdeadbeef00".toList.take 10] ∧
     (simulate_transaction .absent 0 0 0 "0xdeadbeef00".toList).risk_score = 15 ∧
     (simulate_transaction .absent 0 0 0 "0xdeadbeef00".toList).risk_level = "safe".toList) ∧
    ((simulate_transaction .absent 0 0 0 "0xdeadbeef".toList).effects = [] ∧
     (simulate_transaction .absent 0 0 0 "0xdeadbeef".toList).warnings = [] ∧
     (simulate_transaction .absent 0 0 0 "0xdeadbeef".toList).risk_score = 0 ∧
     (simulate_transaction .absent 0 0 0 "0xdeadbeef".toList).risk_level = "safe".toList) :=
  ⟨(unknown_selector_result 0 0 "0xdeadbeef00".toList).1 (by decide) (by decide),
   (unknown_selector_result 0 0 "0xdeadbeef".toList).2 (by decide)⟩

/-- C7 counterexample: the claim says the gas estimate is
21000 + 50000 whenever any calldata is present, but calldata consisting
of exactly the 4-byte approve selector (hex length 10, not `> 10`) is
skipped by the dispatch guard and the estimate stays at the 21000 base. -/
theorem gas_estimate_cex :
    "0x095ea7b3".toList ≠ ([] : List Char) ∧
    (simulate_transaction .absent 0 0 0 "0x095ea7b3".toList).gas_used = 21000 ∧
    (simulate_transaction .absent 0 0 0 "0x095ea7b3".toList).gas_used ≠ 71000 :=
  ⟨by decide, rfl, by decide⟩

/-- C7 (amended): the gas estimate is 21000 when the calldata hex string
has length at most 10 (empty, or at most the `0x`-prefixed selector);
21000 + 50000 when it is longer and its first 10 characters match a
registered selector; and 21000 + 50000 + 100000 when it is longer and
they do not. -/
theorem gas_estimate (o : Oracle) (f t v : Nat) (d : List Char) :
    (d.length ≤ 10 → (simulate_transaction o f t v d).gas_used = 21000) ∧
    (10 < d.length → d.take 10 ∈ sigStrings →
      (simulate_transaction o f t v d).gas_used = 71000) ∧
    (10 < d.length → d.take 10 ∉ sigStrings →
      (simulate_transaction o f t v d).gas_used = 171000) := by
  rw [simulate_transaction_def]
  refine ⟨fun h => ?_, fun hlen hmem => ?_, fun hlen hmem => ?_⟩
  · rw [decode_dispatch_short f t d (by omega)]
  · simp only [sigStrings, List.mem_cons, List.not_mem_nil, or_false] at hmem
    rcases hmem with h | h | h | h | h
    · rw [decode_dispatch_approve f t d hlen h]
    · rw [decode_dispatch_transfer f t d hlen h]
    · rw [decode_dispatch_transfer_from f t d hlen h]
    · rw [decode_dispatch_set_approval f t d hlen h]
    · rw [decode_dispatch_nft f t d hlen h]
  · rw [decode_dispatch_unknown f t d hlen hmem]

/-- C7 witness: the three gas regimes at concrete inputs. -/
theorem gas_estimate_check :
    (simulate_transaction .absent 0 0 0 "".toList).gas_used = 21000 ∧
    (simulate_transaction .absent 0 0 0 "0xa9059cbb00".toList).gas_used = 71000 ∧
    (simulate_transaction .absent 0 0 0 "0xdeadbeef00".toList).gas_used = 171000 :=
  ⟨(gas_estimate .absent 0 0 0 "".toList).1 (by decide),
   (gas_estimate .absent 0 0 0 "0xa9059cbb00".toList).2.1 (by decide) (by decide),
   (gas_estimate .absent 0 0 0 "0xdeadbeef00".toList).2.2 (by decide) (by decide)⟩

/-- C8 counterexample: the oracle's presence does change the risk score
and level of the very same decoded effects.  For an `approve` of 1000
tokens, the local run scores 10 / `safe`, while the same transaction
with an oracle reporting a revert (with reason) scores 40 / `warning` —
the oracle's advisory warnings are fed into `_calculate_risk` at +15
each.  The decoded effects are identical in both runs. -/
theorem oracle_changes_risk_cex :
    (simulate_transaction .absent 0 0 0
      ("0x095ea7b3000000000000000000000000111111111111111111111111111111111111111100000000000000000000000000000000000000000000000000000000000003e8".toList)).risk_score
      = 10 ∧
    (simulate_transaction .absent 0 0 0
      ("0x095ea7b3000000000000000000000000111111111111111111111111111111111111111100000000000000000000000000000000000000000000000000000000000003e8".toList)).risk_level
      = "safe".toList ∧
    (simulate_transaction (.reporting false (some "out of gas".toList)) 0 0 0
      ("0x095ea7b3000000000000000000000000111111111111111111111111111111111111111100000000000000000000000000000000000000000000000000000000000003e8".toList)).risk_score
      = 40 ∧
    (simulate_transaction (.reporting false (some "out of gas".toList)) 0 0 0
      ("0x095ea7b3000000000000000000000000111111111111111111111111111111111111111100000000000000000000000000000000000000000000000000000000000003e8".toList)).risk_level
      = "warning".toList ∧
    (simulate_transaction (.reporting false (some "out of gas".toList)) 0 0 0
      ("0x095ea7b3000000000000000000000000111111111111111111111111111111111111111100000000000000000000000000000000000000000000000000000000000003e8".toList)).effects
      = (simulate_transaction .absent 0 0 0
      ("0x095ea7b3000000000000000000000000111111111111111111111111111111111111111100000000000000000000000000000000000000000000000000000000000003e8".toList)).effects :=
  ⟨rfl, rfl, rfl, rfl, rfl⟩

/-- C8 (amended): the oracle's absence, failure, or report never changes
the decoded effect list or the gas estimate; it contributes only its
advisory warnings, prepended to the warning list, and thereby moves the
risk score exactly by the ordinary +15-per-warning rule (so the score
with the oracle equals the clamped local unclamped total plus 15 per
oracle warning, and is never below the local score). -/
theorem oracle_affects_only_warnings (o : Oracle) (f t v : Nat) (d : List Char) :
    (simulate_transaction o f t v d).effects =
      (simulate_transaction .absent f t v d).effects ∧
    (simulate_transaction o f t v d).warnings =
      oracle_warnings o d ++ (simulate_transaction .absent f t v d).warnings ∧
    (simulate_transaction o f t v d).gas_used =
      (simulate_transaction .absent f t v d).gas_used ∧
    (simulate_transaction o f t v d).risk_score =
      min 100 (unclamped_risk_score (simulate_transaction .absent f t v d).effects
        (simulate_transaction .absent f t v d).warnings +
        15 * (oracle_warnings o d).length) ∧
    (simulate_transaction .absent f t v d).risk_score ≤
      (simulate_transaction o f t v d).risk_score := by
  rw [simulate_transaction_def, simulate_transaction_def, oracle_warnings_absent]
  refine ⟨rfl, by rw [List.nil_append], rfl, ?_, ?_⟩
  · simp only [calculate_risk, unclamped_risk_score, List.length_append, List.nil_append]
    omega
  · simp only [calculate_risk, unclamped_risk_score, List.length_append, List.nil_append]
    omega

/-- C9: the scoring engine is order-independent: permuting the effect
list and the warning list changes neither the risk score nor the risk
classification.  The domain is restricted to effect lists on which the
Python `int()` coercion inside the loop is defined (`effectOK`). -/
theorem risk_permutation_invariant (e1 e2 : List TransactionEffect)
    (w1 w2 : List (List Char)) (t1 : Nat)
    (hok : ∀ e ∈ e1, effectOK e = true)
    (he : e1.Perm e2) (hw : w1.Perm w2) :
    calculate_risk e1 w1 t1 = calculate_risk e2 w2 t1 := by
  unfold calculate_risk unclamped_risk_score
  rw [(he.map effect_contribution).sum_eq, hw.length_eq]

/-- C9 witness: a two-effect, two-warning instance and its swap. -/
theorem risk_permutation_invariant_check :
    calculate_risk
      [{ from_address := 0, to_address := 1, value := "0".toList,
         effect_type := "approve".toList, approval_amount := some "1000".toList },
       { from_address := 1, to_address := 2, value := "5".toList,
         effect_type := "transfer".toList }]
      ["a".toList, "b".toList] 0 =
    calculate_risk
      [{ from_address := 1, to_address := 2, value := "5".toList,
         effect_type := "transfer".toList },
       { from_address := 0, to_address := 1, value := "0".toList,
         effect_type := "approve".toList, approval_amount := some "1000".toList }]
      ["b".toList, "a".toList] 0 :=
  risk_permutation_invariant _ _ _ _ 0 (by decide) (by decide) (by decide)

/-- Pointwise agreement of the implemented per-effect contribution with
the specification's scoring table, on effects where `int()` is defined. -/
theorem effect_contribution_eq_spec (e : TransactionEffect) (h : effectOK e = true) :
    effect_contribution e = spec_effect_points e := by
  unfold effectOK at h
  unfold effect_contribution spec_effect_points
  by_cases ht : e.effect_type = "approve".toList
  · rw [if_pos ht] at h
    rw [if_pos ht, if_pos ht]
    cases ha : e.approval_amount with
    | none => rfl
    | some s =>
      rw [ha] at h
      simp only [Option.some_bind]
      cases hp : parseDecimal s with
      | none =>
        have hnil : s = [] := by
          simp only [hp, Option.isSome_none, Bool.or_false, decide_eq_true_eq] at h
          exact h
        subst hnil
        simp
      | some n =>
        have hsne : s ≠ [] := by
          intro hnil
          rw [hnil] at hp
          simp [parseDecimal] at hp
        simp [hsne]
  · rw [if_neg ht, if_neg ht]
    by_cases hs : e.effect_type = "setApprovalForAll".toList
    · by_cases hall : e.approval_amount = some "ALL".toList
      · rw [if_pos hs, if_pos hall,
          if_pos (show e.effect_type = "setApprovalForAll".toList ∧
            e.approval_amount = some "ALL".toList from ⟨hs, hall⟩)]
      · rw [if_pos hs, if_neg hall,
          if_neg (show ¬(e.effect_type = "setApprovalForAll".toList ∧
            e.approval_amount = some "ALL".toList) from fun hc => hall hc.2),
          hs]
        rw [if_neg (by decide : ¬("setApprovalForAll".toList = "transfer".toList ∨
          "setApprovalForAll".toList = "transferFrom".toList))]
    · rw [if_neg hs,
        if_neg (show ¬(e.effect_type = "setApprovalForAll".toList ∧
          e.approval_amount = some "ALL".toList) from fun hc => hs hc.1)]

/-- C2: on every effect list (within the `int()`-defined domain) and
warning list, the implemented risk score equals the specification's
additive formula — per-effect contributions (+70 unlimited approve,
+10 other approve, +65 approved `setApprovalForAll`, +5 transfer or
transferFrom) plus 15 per warning, clamped to `[0, 100]` — the
implemented classification matches the spec thresholds (`danger` ≥ 60,
`warning` ≥ 30, `safe` below), and the empty-input score is 0 / `safe`. -/
theorem risk_score_matches_spec (effects : List TransactionEffect)
    (warnings : List (List Char)) (t1 : Nat)
    (hok : ∀ e ∈ effects, effectOK e = true) :
    (calculate_risk effects warnings t1).2 = spec_risk_score effects warnings ∧
    (calculate_risk effects warnings t1).1 =
      spec_risk_level (spec_risk_score effects warnings) ∧
    (calculate_risk [] [] t1).2 = 0 ∧
    (calculate_risk [] [] t1).1 = "safe".toList := by
  have hmap : effects.map effect_contribution = effects.map spec_effect_points :=
    List.map_congr_left (fun e he => effect_contribution_eq_spec e (hok e he))
  have hu : min 100 (unclamped_risk_score effects warnings) =
      spec_risk_score effects warnings := by
    simp only [unclamped_risk_score, spec_risk_score, hmap]
    omega
  refine ⟨hu, ?_, by simp [calculate_risk, unclamped_risk_score],
    by simp [calculate_risk, unclamped_risk_score]⟩
  unfold calculate_risk spec_risk_level
  dsimp only
  rw [hu]

/-- C2 witness: a mixed effect/warning instance. -/
theorem risk_score_matches_spec_check :
    (calculate_risk
      [{ from_address := 0, to_address := 1, value := "0".toList,
         effect_type := "approve".toList, approval_amount := some "1000".toList },
       { from_address := 1, to_address := 2, value := "7".toList,
         effect_type := "transferFrom".toList }]
      ["w".toList] 3).2 =
      spec_risk_score
        [{ from_address := 0, to_address := 1, value := "0".toList,
           effect_type := "approve".toList, approval_amount := some "1000".toList },
         { from_address := 1, to_address := 2, value := "7".toList,
           effect_type := "transferFrom".toList }]
        ["w".toList] ∧
    (calculate_risk
      [{ from_address := 0, to_address := 1, value := "0".toList,
         effect_type := "approve".toList, approval_amount := some "1000".toList },
       { from_address := 1, to_address := 2, value := "7".toList,
         effect_type := "transferFrom".toList }]
      ["w".toList] 3).1 =
      spec_risk_level (spec_risk_score
        [{ from_address := 0, to_address := 1, value := "0".toList,
           effect_type := "approve".toList, approval_amount := some "1000".toList },
         { from_address := 1, to_address := 2, value := "7".toList,
           effect_type := "transferFrom".toList }]
        ["w".toList]) ∧
    (calculate_risk [] [] 3).2 = 0 ∧
    (calculate_risk [] [] 3).1 = "safe".toList :=
  risk_score_matches_spec _ _ 3 (by decide)

/-- C5 counterexample: for the recognized `transfer` selector with
undecodable parameter bytes, the simulation completes but appends NO
decode-failure warning (the source's `_decode_transfer` swallows the
exception and returns `None` without reporting), contradicting the claim
that a "failed to decode call" warning is appended for every recognized
selector. -/
theorem decode_failure_warning_cex :
    decode_transfer 0 0 "00".toList = none ∧
    (simulate_transaction .absent 0 0 0 "0xa9059cbb00".toList).success = true ∧
    (simulate_transaction .absent 0 0 0 "0xa9059cbb00".toList).warnings = [] :=
  ⟨rfl, rfl, rfl⟩

/-- C5 (amended): when the parameter bytes of a recognized selector fail
to decode, `simulate_transaction` still completes (success, no abort) for
every recognized selector; but a "Failed to decode …" warning is
appended only for `approve` and `setApprovalForAll` — for `transfer`,
`transferFrom` and `safeTransferFrom` the failure is silent: no effect
and no warning. -/
theorem decode_failure_handling (f t : Nat) (cd : List Char) (hcd : cd ≠ []) :
    ((decode_approve f t cd).1 = none →
      (simulate_transaction .absent f t 0 ("0x095ea7b3".toList ++ cd)).success = true ∧
      (∃ e, (simulate_transaction .absent f t 0 ("0x095ea7b3".toList ++ cd)).warnings =
        ["Failed to decode approve call: ".toList ++ errMsg e]) ∧
      (simulate_transaction .absent f t 0 ("0x095ea7b3".toList ++ cd)).effects = []) ∧
    (decode_transfer f t cd = none →
      (simulate_transaction .absent f t 0 ("0xa9059cbb".toList ++ cd)).success = true ∧
      (simulate_transaction .absent f t 0 ("0xa9059cbb".toList ++ cd)).warnings = [] ∧
      (simulate_transaction .absent f t 0 ("0xa9059cbb".toList ++ cd)).effects = []) ∧
    (decode_transfer_from t cd = none →
      (simulate_transaction .absent f t 0 ("0x23b872dd".toList ++ cd)).success = true ∧
      (simulate_transaction .absent f t 0 ("0x23b872dd".toList ++ cd)).warnings = [] ∧
      (simulate_transaction .absent f t 0 ("0x23b872dd".toList ++ cd)).effects = []) ∧
    (decode_nft_transfer t cd = none →
      (simulate_transaction .absent f t 0 ("0x42842e0e".toList ++ cd)).success = true ∧
      (simulate_transaction .absent f t 0 ("0x42842e0e".toList ++ cd)).warnings = [] ∧
      (simulate_transaction .absent f t 0 ("0x42842e0e".toList ++ cd)).effects = []) ∧
    ((decode_set_approval_for_all f t cd).1 = none →
      (simulate_transaction .absent f t 0 ("0xa22cb465".toList ++ cd)).success = true ∧
      (∃ e, (simulate_transaction .absent f t 0 ("0xa22cb465".toList ++ cd)).warnings =
        ["Failed to decode NFT approval: ".toList ++ errMsg e]) ∧
      (simulate_transaction .absent f t 0 ("0xa22cb465".toList ++ cd)).effects = []) := by
  refine ⟨fun h => ?_, fun h => ?_, fun h => ?_, fun h => ?_, fun h => ?_⟩
  · obtain ⟨e, hda⟩ := decode_approve_failure f t cd h
    rw [simulate_transaction_def,
      decode_dispatch_approve f t _ (len10_append _ _ (by decide) hcd)
        ((take10_append _ _ (by decide)).trans (by decide)),
      drop10_append _ _ (by decide), hda, oracle_warnings_absent]
    exact ⟨rfl, ⟨e, rfl⟩, by simp⟩
  · rw [simulate_transaction_def,
      decode_dispatch_transfer f t _ (len10_append _ _ (by decide) hcd)
        ((take10_append _ _ (by decide)).trans (by decide)),
      drop10_append _ _ (by decide), h, oracle_warnings_absent]
    exact ⟨rfl, rfl, by simp⟩
  · rw [simulate_transaction_def,
      decode_dispatch_transfer_from f t _ (len10_append _ _ (by decide) hcd)
        ((take10_append _ _ (by decide)).trans (by decide)),
      drop10_append _ _ (by decide), h, oracle_warnings_absent]
    exact ⟨rfl, rfl, by simp⟩
  · rw [simulate_transaction_def,
      decode_dispatch_nft f t _ (len10_append _ _ (by decide) hcd)
        ((take10_append _ _ (by decide)).trans (by decide)),
      drop10_append _ _ (by decide), h, oracle_warnings_absent]
    exact ⟨rfl, rfl, by simp⟩
  · obtain ⟨e, hda⟩ := decode_set_approval_failure f t cd h
    rw [simulate_transaction_def,
      decode_dispatch_set_approval f t _ (len10_append _ _ (by decide) hcd)
        ((take10_append _ _ (by decide)).trans (by decide)),
      drop10_append _ _ (by decide), hda, oracle_warnings_absent]
    exact ⟨rfl, ⟨e, rfl⟩, by simp⟩

/-- C5 witness: one-byte parameter bytes `00` fail to decode under every
recognized selector. -/
theorem decode_failure_handling_check :
    ((simulate_transaction .absent 0 0 0 ("0x095ea7b3".toList ++ "00".toList)).success = true ∧
     (∃ e, (simulate_transaction .absent 0 0 0 ("0x095ea7b3".toList ++ "00".toList)).warnings =
       ["Failed to decode approve call: ".toList ++ errMsg e]) ∧
     (simulate_transaction .absent 0 0 0 ("0x095ea7b3".toList ++ "00".toList)).effects = []) ∧
    ((simulate_transaction .absent 0 0 0 ("0xa9059cbb".toList ++ "00".toList)).success = true ∧
     (simulate_transaction .absent 0 0 0 ("0xa9059cbb".toList ++ "00".toList)).warnings = [] ∧
     (simulate_transaction .absent 0 0 0 ("0xa9059cbb".toList ++ "00".toList)).effects = []) ∧
    ((simulate_transaction .absent 0 0 0 ("0x23b872dd".toList ++ "00".toList)).success = true ∧
     (simulate_transaction .absent 0 0 0 ("0x23b872dd".toList ++ "00".toList)).warnings = [] ∧
     (simulate_transaction .absent 0 0 0 ("0x23b872dd".toList ++ "00".toList)).effects = []) ∧
    ((simulate_transaction .absent 0 0 0 ("0x42842e0e".toList ++ "00".toList)).success = true ∧
     (simulate_transaction .absent 0 0 0 ("0x42842e0e".toList ++ "00".toList)).warnings = [] ∧
     (simulate_transaction .absent 0 0 0 ("0x42842e0e".toList ++ "00".toList)).effects = []) ∧
    ((simulate_transaction .absent 0 0 0 ("0xa22cb465".toList ++ "00".toList)).success = true ∧
     (∃ e, (simulate_transaction .absent 0 0 0 ("0xa22cb465".toList ++ "00".toList)).warnings =
       ["Failed to decode NFT approval: ".toList ++ errMsg e]) ∧
     (simulate_transaction .absent 0 0 0 ("0xa22cb465".toList ++ "00".toList)).effects = []) :=
  ⟨(decode_failure_handling 0 0 "00".toList (by decide)).1 rfl,
   (decode_failure_handling 0 0 "00".toList (by decide)).2.1 rfl,
   (decode_failure_handling 0 0 "00".toList (by decide)).2.2.1 rfl,
   (decode_failure_handling 0 0 "00".toList (by decide)).2.2.2.1 rfl,
   (decode_failure_handling 0 0 "00".toList (by decide)).2.2.2.2 rfl⟩

/-- C3 counterexample: a well-formed `setApprovalForAll(operator, true)`
calldata produces an effect with marker "ALL" but THREE warnings, not
exactly one — the source appends a headline, the operator-naming line
and an advisory line. -/
theorem set_approval_warnings_cex :
    ((decode_set_approval_for_all 0 0
      "00000000000000000000000012345678901234567890123456789012345678900000000000000000000000000000000000000000000000000000000000000001".toList).1.map
        fun e => e.approval_amount) = some (some "ALL".toList) ∧
    (decode_set_approval_for_all 0 0
      "00000000000000000000000012345678901234567890123456789012345678900000000000000000000000000000000000000000000000000000000000000001".toList).2.length
      = 3 ∧
    (decode_set_approval_for_all 0 0
      "00000000000000000000000012345678901234567890123456789012345678900000000000000000000000000000000000000000000000000000000000000001".toList).2.length
      ≠ 1 :=
  ⟨rfl, rfl, by decide⟩

/-- C3 (amended): for every well-formed `setApprovalForAll` calldata
(64 bytes decoding to an operator and a flag): when `approved` is true,
the effect's amount marker is `"ALL"` and exactly THREE warnings are
emitted, the second of which names the operator; when `approved` is
false, the marker is `"0"` and zero warnings are emitted. -/
theorem set_approval_decode (f c op : Nat) (b : Bool) (cd : List Char) (bs : List Byte)
    (hbs : bs.length = 64)
    (hhex : fromhexE cd = .ok bs)
    (hdec : abiDecodeAddrBool bs = .ok (op, b)) :
    decode_set_approval_for_all f c cd =
      (some { from_address := f, to_address := op, value := "0".toList,
              token_address := some c, token_symbol := some "NFT".toList,
              effect_type := "setApprovalForAll".toList,
              approval_amount := some (if b then "ALL".toList else "0".toList) },
       if b then
         ["⚠️ NFT APPROVAL FOR ALL DETECTED".toList,
          "This allows ".toList ++ addrStr op ++
            " to transfer ALL your NFTs in this collection!".toList,
          "Common in NFT phishing scams - verify the operator address carefully".toList]
       else []) := by
  unfold decode_set_approval_for_all
  rw [hhex]
  simp only [Except.bind]
  rw [hdec]

/-- C3 witness: operator `0x1234…7890`, both flag polarities. -/
theorem set_approval_decode_check :
    decode_set_approval_for_all 1 2
      "00000000000000000000000012345678901234567890123456789012345678900000000000000000000000000000000000000000000000000000000000000000".toList =
      (some { from_address := 1, to_address := 0x1234567890123456789012345678901234567890,
              value := "0".toList,
              token_address := some 2, token_symbol := some "NFT".toList,
              effect_type := "setApprovalForAll".toList,
              approval_amount := some (if false then "ALL".toList else "0".toList) },
       if false then
         ["⚠️ NFT APPROVAL FOR ALL DETECTED".toList,
          "This allows ".toList ++ addrStr 0x1234567890123456789012345678901234567890 ++
            " to transfer ALL your NFTs in this collection!".toList,
          "Common in NFT phishing scams - verify the operator address carefully".toList]
       else []) :=
  set_approval_decode 1 2 0x1234567890123456789012345678901234567890 false
    "00000000000000000000000012345678901234567890123456789012345678900000000000000000000000000000000000000000000000000000000000000000".toList
    (List.replicate 12 0 ++
      [0x12, 0x34, 0x56, 0x78, 0x90, 0x12, 0x34, 0x56, 0x78, 0x90,
       0x12, 0x34, 0x56, 0x78, 0x90, 0x12, 0x34, 0x56, 0x78, 0x90] ++
      List.replicate 32 0)
    (by decide) (by decide) (by decide)

/-- Evaluation of the per-effect contribution at the unlimited-approve
effect produced by `_decode_approve`: it scores 70. -/
theorem effect_contribution_unlimited (f t sp : Nat) :
    effect_contribution
      { from_address := f, to_address := sp, value := "0".toList,
        token_address := some t, token_symbol := some "UNKNOWN_TOKEN".toList,
        effect_type := "approve".toList,
        approval_amount := some (pyStr UNLIMITED_APPROVAL) } = 70 := by
  unfold effect_contribution
  rw [if_pos rfl]
  dsimp only
  rw [if_pos (show pyStr UNLIMITED_APPROVAL ≠ [] ∧
    approveThreshold ≤ (parseDecimal (pyStr UNLIMITED_APPROVAL)).getD 0 by decide)]

/-- C1: a zero-value transaction whose calldata is the `approve` selector
followed by a well-formed ABI encoding of any spender and the amount
`2^256 - 1` simulates to risk level `danger`, risk score exactly 100, and
an effects list holding exactly one effect, of type `approve`. -/
theorem unlimited_approve_scenario (f t sp : Nat) (s : List Char) (bs : List Byte)
    (hs : s ≠ []) (hbs : bs.length = 64)
    (hhex : fromhexE s = .ok bs)
    (hdec : abiDecodeAddrUint bs = .ok (sp, UNLIMITED_APPROVAL)) :
    (simulate_transaction .absent f t 0 ("0x095ea7b3".toList ++ s)).risk_level
      = "danger".toList ∧
    (simulate_transaction .absent f t 0 ("0x095ea7b3".toList ++ s)).risk_score = 100 ∧
    ∃ e, (simulate_transaction .absent f t 0 ("0x095ea7b3".toList ++ s)).effects = [e] ∧
      e.effect_type = "approve".toList := by
  have hda : decode_approve f t s =
      (some { from_address := f, to_address := sp, value := "0".toList,
              token_address := some t, token_symbol := some "UNKNOWN_TOKEN".toList,
              effect_type := "approve".toList,
              approval_amount := some (pyStr UNLIMITED_APPROVAL) },
       ["⚠️ UNLIMITED TOKEN APPROVAL DETECTED".toList,
        "This allows ".toList ++ addrStr sp ++ " to spend ALL your tokens forever!".toList,
        "This is a common pattern used by token drainer scams".toList]) := by
    unfold decode_approve
    rw [hhex]
    simp only [Except.bind]
    rw [hdec]
    dsimp only
    rw [if_pos (show approveThreshold ≤ UNLIMITED_APPROVAL by decide)]
  rw [simulate_transaction_def,
    decode_dispatch_approve f t _ (len10_append _ _ (by decide) hs)
      ((take10_append _ _ (by decide)).trans (by decide)),
    drop10_append _ _ (by decide), hda, oracle_warnings_absent]
  have hrisk : calculate_risk
      [{ from_address := f, to_address := sp, value := "0".toList,
         token_address := some t, token_symbol := some "UNKNOWN_TOKEN".toList,
         effect_type := "approve".toList,
         approval_amount := some (pyStr UNLIMITED_APPROVAL) }]
      ["⚠️ UNLIMITED TOKEN APPROVAL DETECTED".toList,
       "This allows ".toList ++ addrStr sp ++ " to spend ALL your tokens forever!".toList,
       "This is a common pattern used by token drainer scams".toList] t =
      ("danger".toList, 100) := by
    unfold calculate_risk unclamped_risk_score
    rw [List.map_singleton, effect_contribution_unlimited f t sp]
    norm_num
  simp only [lt_self_iff_false, if_false, Option.toList_some, List.nil_append]
  rw [hrisk]
  exact ⟨rfl, rfl, ⟨_, rfl, rfl⟩⟩

/-- C1 witness: spender `0x1234…7890`, amount `2^256 - 1`. -/
theorem unlimited_approve_scenario_check :
    (simulate_transaction .absent 1 2 0 ("0x095ea7b3".toList ++
      "0000000000000000000000001234567890123456789012345678901234567890ffffffffffffffffffffffffffffffffffffffffffffffffffffffffffffffff".toList)).risk_level
      = "danger".toList ∧
    (simulate_transaction .absent 1 2 0 ("0x095ea7b3".toList ++
      "0000000000000000000000001234567890123456789012345678901234567890ffffffffffffffffffffffffffffffffffffffffffffffffffffffffffffffff".toList)).risk_score
      = 100 ∧
    ∃ e, (simulate_transaction .absent 1 2 0 ("0x095ea7b3".toList ++
      "0000000000000000000000001234567890123456789012345678901234567890ffffffffffffffffffffffffffffffffffffffffffffffffffffffffffffffff".toList)).effects
      = [e] ∧ e.effect_type = "approve".toList :=
  unlimited_approve_scenario 1 2 0x1234567890123456789012345678901234567890
    "0000000000000000000000001234567890123456789012345678901234567890ffffffffffffffffffffffffffffffffffffffffffffffffffffffffffffffff".toList
    (List.replicate 12 0 ++
      [0x12, 0x34, 0x56, 0x78, 0x90, 0x12, 0x34, 0x56, 0x78, 0x90,
       0x12, 0x34, 0x56, 0x78, 0x90, 0x12, 0x34, 0x56, 0x78, 0x90] ++
      List.replicate 32 0xff)
    (by decide) (by decide) (by decide) (by decide)

theorem readSlot32_short {bs : List Byte} (h : bs.length < 32) :
    readSlot32 bs = .error .truncated := by
  unfold readSlot32
  rw [if_pos h]

theorem readSlot32_full {bs : List Byte} (h : ¬ bs.length < 32) :
    readSlot32 bs = .ok (bs.take 32, bs.drop 32) := by
  unfold readSlot32
  rw [if_neg h]

theorem take32_take12 (bs : List Byte) : (bs.take 32).take 12 = bs.take 12 := by
  rw [List.take_take]
  norm_num

/-- C4 counterexample: for the recognized `approve` selector (which
needs 64 parameter bytes), a 32-byte buffer whose complete address slot
carries a nonzero padding byte is shorter than required, yet decoding
fails with the padding error — not with `TruncatedCalldata` as the claim
requires for every short input. -/
theorem truncated_decode_cex :
    (1 :: List.replicate 31 0).length < 64 ∧
    abiDecodeAddrUint (1 :: List.replicate 31 0) = .error .nonZeroPadding ∧
    abiDecodeAddrUint (1 :: List.replicate 31 0) ≠ .error .truncated :=
  ⟨by decide, by decide, by decide⟩

/-- C4 (amended): for every recognized selector, parameter bytes shorter
than the required 32-byte slot count always yield a typed decode error —
never a crash or a silently defaulted effect — and that error is
`TruncatedCalldata` whenever every fully-present address slot is
zero-padded (a malformed complete slot ahead of the shortfall reports
its own typed error instead).  The three decoders cover the five
selectors: approve/transfer (2 slots), setApprovalForAll (2 slots, whose
bool slot is never complete on short input), and
transferFrom/safeTransferFrom (3 slots). -/
theorem truncated_decode_amended (bs : List Byte) :
    (bs.length < 64 →
      (∃ e, abiDecodeAddrUint bs = .error e) ∧
      (addrSlotZeroPadded bs → abiDecodeAddrUint bs = .error .truncated)) ∧
    (bs.length < 64 →
      (∃ e, abiDecodeAddrBool bs = .error e) ∧
      (addrSlotZeroPadded bs → abiDecodeAddrBool bs = .error .truncated)) ∧
    (bs.length < 96 →
      (∃ e, abiDecodeAddrAddrUint bs = .error e) ∧
      (addrSlotZeroPadded bs → addrSlotZeroPadded (bs.drop 32) →
        abiDecodeAddrAddrUint bs = .error .truncated)) := by
  refine ⟨fun h64 => ?_, fun h64 => ?_, fun h96 => ?_⟩
  · by_cases h32 : bs.length < 32
    · have ht : abiDecodeAddrUint bs = .error .truncated := by
        unfold abiDecodeAddrUint
        rw [readSlot32_short h32]
      exact ⟨⟨_, ht⟩, fun _ => ht⟩
    · by_cases hp : (bs.take 12).all (· = 0) = true
      · have hda : decAddressSlot (bs.take 32) = .ok (bytesToNat ((bs.take 32).drop 12)) := by
          unfold decAddressSlot
          rw [take32_take12, if_pos hp]
        have ht : abiDecodeAddrUint bs = .error .truncated := by
          unfold abiDecodeAddrUint
          rw [readSlot32_full h32]
          dsimp only
          rw [hda]
          dsimp only
          rw [readSlot32_short (show (bs.drop 32).length < 32 by
            rw [List.length_drop]; omega)]
        exact ⟨⟨_, ht⟩, fun _ => ht⟩
      · have hda : decAddressSlot (bs.take 32) = .error .nonZeroPadding := by
          unfold decAddressSlot
          rw [take32_take12, if_neg hp]
        have hx : abiDecodeAddrUint bs = .error .nonZeroPadding := by
          unfold abiDecodeAddrUint
          rw [readSlot32_full h32]
          dsimp only
          rw [hda]
        refine ⟨⟨_, hx⟩, fun hcl => ?_⟩
        rcases hcl with hcl | hcl
        · omega
        · exact absurd hcl hp
  · by_cases h32 : bs.length < 32
    · have ht : abiDecodeAddrBool bs = .error .truncated := by
        unfold abiDecodeAddrBool
        rw [readSlot32_short h32]
      exact ⟨⟨_, ht⟩, fun _ => ht⟩
    · by_cases hp : (bs.take 12).all (· = 0) = true
      · have hda : decAddressSlot (bs.take 32) = .ok (bytesToNat ((bs.take 32).drop 12)) := by
          unfold decAddressSlot
          rw [take32_take12, if_pos hp]
        have ht : abiDecodeAddrBool bs = .error .truncated := by
          unfold abiDecodeAddrBool
          rw [readSlot32_full h32]
          dsimp only
          rw [hda]
          dsimp only
          rw [readSlot32_short (show (bs.drop 32).length < 32 by
            rw [List.length_drop]; omega)]
        exact ⟨⟨_, ht⟩, fun _ => ht⟩
      · have hda : decAddressSlot (bs.take 32) = .error .nonZeroPadding := by
          unfold decAddressSlot
          rw [take32_take12, if_neg hp]
        have hx : abiDecodeAddrBool bs = .error .nonZeroPadding := by
          unfold abiDecodeAddrBool
          rw [readSlot32_full h32]
          dsimp only
          rw [hda]
        refine ⟨⟨_, hx⟩, fun hcl => ?_⟩
        rcases hcl with hcl | hcl
        · omega
        · exact absurd hcl hp
  · by_cases h32 : bs.length < 32
    · have ht : abiDecodeAddrAddrUint bs = .error .truncated := by
        unfold abiDecodeAddrAddrUint
        rw [readSlot32_short h32]
      exact ⟨⟨_, ht⟩, fun _ _ => ht⟩
    · by_cases hp : (bs.take 12).all (· = 0) = true
      · have hda : decAddressSlot (bs.take 32) = .ok (bytesToNat ((bs.take 32).drop 12)) := by
          unfold decAddressSlot
          rw [take32_take12, if_pos hp]
        by_cases h64 : bs.length < 64
        · have ht : abiDecodeAddrAddrUint bs = .error .truncated := by
            unfold abiDecodeAddrAddrUint
            rw [readSlot32_full h32]
            dsimp only
            rw [hda]
            dsimp only
            rw [readSlot32_short (show (bs.drop 32).length < 32 by
              rw [List.length_drop]; omega)]
          exact ⟨⟨_, ht⟩, fun _ _ => ht⟩
        · have hd32 : ¬ (bs.drop 32).length < 32 := by
            rw [List.length_drop]; omega
          by_cases hp2 : ((bs.drop 32).take 12).all (· = 0) = true
          · have hda2 : decAddressSlot ((bs.drop 32).take 32) =
                .ok (bytesToNat (((bs.drop 32).take 32).drop 12)) := by
              unfold decAddressSlot
              rw [take32_take12, if_pos hp2]
            have ht : abiDecodeAddrAddrUint bs = .error .truncated := by
              unfold abiDecodeAddrAddrUint
              rw [readSlot32_full h32]
              dsimp only
              rw [hda]
              dsimp only
              rw [readSlot32_full hd32]
              dsimp only
              rw [hda2]
              dsimp only
              rw [readSlot32_short (show ((bs.drop 32).drop 32).length < 32 by
                rw [List.drop_drop, List.length_drop]; omega)]
            exact ⟨⟨_, ht⟩, fun _ _ => ht⟩
          · have hda2 : decAddressSlot ((bs.drop 32).take 32) = .error .nonZeroPadding := by
              unfold decAddressSlot
              rw [take32_take12, if_neg hp2]
            have hx : abiDecodeAddrAddrUint bs = .error .nonZeroPadding := by
              unfold abiDecodeAddrAddrUint
              rw [readSlot32_full h32]
              dsimp only
              rw [hda]
              dsimp only
              rw [readSlot32_full hd32]
              dsimp only
              rw [hda2]
            refine ⟨⟨_, hx⟩, fun _ hcl2 => ?_⟩
            rcases hcl2 with hcl2 | hcl2
            · rw [List.length_drop] at hcl2; omega
            · exact absurd hcl2 hp2
      · have hda : decAddressSlot (bs.take 32) = .error .nonZeroPadding := by
          unfold decAddressSlot
          rw [take32_take12, if_neg hp]
        have hx : abiDecodeAddrAddrUint bs = .error .nonZeroPadding := by
          unfold abiDecodeAddrAddrUint
          rw [readSlot32_full h32]
          dsimp only
          rw [hda]
        refine ⟨⟨_, hx⟩, fun hcl _ => ?_⟩
        rcases hcl with hcl | hcl
        · omega
        · exact absurd hcl hp

/-- C4 witness: 10 zero bytes are shorter than every slot requirement
and decode to `TruncatedCalldata` under all three parameter layouts. -/
theorem truncated_decode_check :
    (∃ e, abiDecodeAddrUint (List.replicate 10 0) = .error e) ∧
    abiDecodeAddrUint (List.replicate 10 0) = .error .truncated ∧
    abiDecodeAddrBool (List.replicate 10 0) = .error .truncated ∧
    abiDecodeAddrAddrUint (List.replicate 10 0) = .error .truncated :=
  ⟨((truncated_decode_amended (List.replicate 10 0)).1 (by decide)).1,
   ((truncated_decode_amended (List.replicate 10 0)).1 (by decide)).2 (by decide),
   ((truncated_decode_amended (List.replicate 10 0)).2.1 (by decide)).2 (by decide),
   ((truncated_decode_amended (List.replicate 10 0)).2.2 (by decide)).2 (by decide) (by decide)⟩

end CryptoC
